import Mathlib

/-!
Windows runner: native window shell and embedding host.

A shallow embedding of the Windows runner of the application:

* `win32_window.cpp` / `win32_window.h` : class `Win32Window` (the native window shell),
* `flutter_window.cpp` : class `FlutterWindow` (the embedding host, derived from `Win32Window`),
* `main.cpp` : the process entry point `wWinMain`.

Conventions of the embedding.

* Handles and machine words are numbers; the null handle `nullptr` is `0`.
* A C++ object is a structure of its data members; a member function takes the object and
  returns the updated object.
* Calls that leave the program (Win32 API, the embedded engine, the debug output) are recorded,
  in program order, as a list of `Event`s returned by each function.  Values such calls return
  are read from an environment `Env` (for pure queries) or passed in as an argument (for
  `CreateWindow` and `GetMessage`, whose answers differ from call to call).  The re-entrant
  delivery of window messages that the OS performs inside `CreateWindow` and `DestroyWindow`
  is OS behaviour and is not expanded; messages are delivered explicitly through `WndProc`
  or `MessageHandler`.
* A few program-internal steps the properties speak about (clearing the handle, releasing the
  engine or the channel, entering the close hook) are recorded as events as well.
-/

namespace Runner

/-! Machine types and constants of the platform headers. -/

/-- Window handle `HWND`; `0` is `nullptr`. -/
abbrev HWND := Nat
/-- Message identifier `UINT`. -/
abbrev UINT := Nat
/-- Message parameter `WPARAM`. -/
abbrev WPARAM := Nat
/-- Message parameter `LPARAM`. -/
abbrev LPARAM := Int
/-- Message result `LRESULT`. -/
abbrev LRESULT := Int

/-- Value of `WM_CREATE` in the platform header `winuser.h`. -/
def WM_CREATE : UINT := 0x0001
/-- Value of `WM_DESTROY` in the platform header `winuser.h`. -/
def WM_DESTROY : UINT := 0x0002
/-- Value of `WM_NCCREATE` in the platform header `winuser.h`. -/
def WM_NCCREATE : UINT := 0x0081
/-- Value of `EXIT_FAILURE` in `stdlib.h`. -/
def EXIT_FAILURE : Int := 1

/-- Values kept in a window's `GWLP_USERDATA` slot (a `LONG_PTR` in the source): the null
pointer, the address of the window's owning `Win32Window` object (`this` in `CreateAndShow`),
or the address of a `FlutterViewController`, named by the controller's identity.  Distinct
live objects have distinct addresses, which the constructors encode. -/
inductive LONG_PTR where
  | null
  | shell
  | controller (id : Nat)
  deriving DecidableEq, Repr

/-- The `GWLP_USERDATA` slot of every window, as read by `GetWindowLongPtr`. -/
abbrev UserData := HWND → LONG_PTR

/-- Effect of `SetWindowLongPtr(window, GWLP_USERDATA, value)` on the slots. -/
def SetWindowLongPtr (ud : UserData) (window : HWND) (value : LONG_PTR) : UserData :=
  fun h => if h = window then value else ud h

/-- Struct `Win32Window::Point`. -/
structure Point where
  x : Int
  y : Int
  deriving DecidableEq, Repr

/-- Struct `Win32Window::Size`. -/
structure Size where
  width : Int
  height : Int
  deriving DecidableEq, Repr

/-- Win32 `RECT`. -/
structure RECT where
  left : Int
  top : Int
  right : Int
  bottom : Int
  deriving DecidableEq, Repr

/-- One retrieved message `MSG`, as far as the program looks at it. -/
structure MSG where
  hwnd : HWND
  message : UINT
  wParam : WPARAM
  lParam : LPARAM
  deriving DecidableEq, Repr

/-- Calls leaving the program and the internal steps the properties speak about, in the order
the code performs them. -/
inductive Event where
  /-- Call `RegisterClass(&window_class)` with the class name. -/
  | RegisterClass (class_name : String)
  /-- Call `AdjustWindowRect(&frame, WS_OVERLAPPEDWINDOW, FALSE)` with the frame passed in. -/
  | AdjustWindowRect (frame : RECT)
  /-- Call `CreateWindow(class, title, style, x, y, width, height, ..., this)`. -/
  | CreateWindow (title : String) (x y width height : Int)
  /-- Call `DestroyWindow(handle)`: the request for OS destruction. -/
  | DestroyWindow (handle : HWND)
  /-- Call `DefWindowProc(window, message, wparam, lparam)`. -/
  | DefWindowProc (window : HWND) (message : UINT) (wparam : WPARAM) (lparam : LPARAM)
  /-- Call `SetWindowLongPtr(window, GWLP_USERDATA, value)`. -/
  | SetWindowLongPtr (window : HWND) (value : LONG_PTR)
  /-- The assignment `window_handle_ = nullptr` in `Win32Window::MessageHandler`. -/
  | HandleCleared
  /-- Entry into the virtual close-notification hook `OnClosed`. -/
  | OnClosed
  /-- Construction of a `FlutterViewController` with the given view size. -/
  | ControllerCreated (id : Nat) (width height : Int)
  /-- Call `RegisterPlugins(flutter_controller_->engine())`. -/
  | RegisterPlugins (id : Nat)
  /-- Construction of the `MethodChannel` on the messenger of a controller's engine. -/
  | ChannelCreated (name : String) (messenger_of : Nat)
  /-- Call `method_channel_->SetMethodCallHandler(...)`. -/
  | SetMethodCallHandler (name : String)
  /-- Destruction of the `FlutterViewController` a `unique_ptr` held. -/
  | ControllerReleased (id : Nat)
  /-- Destruction of the `MethodChannel` a `unique_ptr` held. -/
  | ChannelReleased (name : String)
  /-- Call `flutter_controller_->HandleTopLevelWindowProc(window, message, wparam, lparam)`. -/
  | HandleTopLevelWindowProc (id : Nat) (window : HWND) (message : UINT) (wparam : WPARAM)
      (lparam : LPARAM)
  /-- Call `OutputDebugString(text)`. -/
  | OutputDebugString (text : String)
  /-- Statement `std::cout << text << std::endl`. -/
  | Cout (text : String)
  /-- Call `ShowWindow(handle, show_command)`. -/
  | ShowWindow (handle : HWND) (show_command : Int)
  /-- Call `UpdateWindow(handle)`. -/
  | UpdateWindow (handle : HWND)
  /-- One call `GetMessage(&message, nullptr, 0, 0)`. -/
  | GetMessage
  /-- Call `TranslateMessage(&message)`. -/
  | TranslateMessage (msg : MSG)
  /-- Call `DispatchMessage(&message)`. -/
  | DispatchMessage (msg : MSG)
  deriving DecidableEq, Repr

/-- Answers of the pure external queries the code makes. -/
structure Env where
  /-- Result of `DefWindowProc(window, message, wparam, lparam)`. -/
  DefWindowProc : HWND → UINT → WPARAM → LPARAM → LRESULT
  /-- Result of `HandleTopLevelWindowProc` of the controller with the given identity. -/
  HandleTopLevelWindowProc : Nat → HWND → UINT → WPARAM → LPARAM → LRESULT
  /-- The rectangle `AdjustWindowRect` writes back for the frame passed in. -/
  AdjustWindowRect : RECT → RECT
  /-- Field `lpCreateParams` of the `CREATESTRUCT` that the `lparam` of `WM_NCCREATE`
  points to. -/
  lpCreateParams : LPARAM → LONG_PTR

/-! Class `Win32Window` (win32_window.h, win32_window.cpp). -/

/-- Data members of class `Win32Window`: `HWND window_handle_ = nullptr;`. -/
structure Win32Window where
  window_handle_ : HWND := 0
  deriving DecidableEq, Repr

/-- Outcome of a member function without a result: the object and the events emitted. -/
structure Done (σ : Type) where
  self : σ
  events : List Event

/-- Outcome of a message handler: the object, the user-data slots, the `LRESULT` and the
events emitted. -/
structure Handled (σ : Type) where
  self : σ
  userdata : UserData
  result : LRESULT
  events : List Event

/-- Constructor `Win32Window::Win32Window() {}`. -/
def Win32Window.new : Win32Window := { window_handle_ := 0 }

/-- Accessor `Win32Window::GetHandle`. -/
def Win32Window.GetHandle (self : Win32Window) : HWND := self.window_handle_

/-- Function `Win32Window::CreateAndShow`.  `created` is the value `CreateWindow` returns. -/
def Win32Window.CreateAndShow (env : Env) (self : Win32Window) (title : String)
    (origin : Point) (size : Size) (created : HWND) : Win32Window × Bool × List Event :=
  let class_name := "FlutterWindowClass"
  let frame0 : RECT :=
    { left := origin.x, top := origin.y,
      right := origin.x + size.width, bottom := origin.y + size.height }
  let frame := env.AdjustWindowRect frame0
  let self1 : Win32Window := { self with window_handle_ := created }
  (self1, decide (self1.window_handle_ ≠ 0),
    [Event.RegisterClass class_name, Event.AdjustWindowRect frame0,
     Event.CreateWindow title frame.left frame.top (frame.right - frame.left)
       (frame.bottom - frame.top)])

/-- Function `Win32Window::Destroy`. -/
def Win32Window.Destroy (self : Win32Window) : Done Win32Window :=
  if self.window_handle_ ≠ 0 then
    { self := { self with window_handle_ := 0 },
      events := [Event.DestroyWindow self.window_handle_] }
  else
    { self := self, events := [] }

/-- Function `Win32Window::OnClosed`, the empty default body of the virtual hook. -/
def Win32Window.OnClosed (self : Win32Window) : Done Win32Window :=
  { self := self, events := [Event.OnClosed] }

/-- Function `Win32Window::MessageHandler`.  The virtual call `OnClosed()` is resolved by the
argument `vOnClosed`, the override of the object's dynamic class acting on the base part. -/
def Win32Window.MessageHandler (env : Env) (vOnClosed : Win32Window → Done Win32Window)
    (self : Win32Window) (ud : UserData) (window : HWND) (message : UINT) (wparam : WPARAM)
    (lparam : LPARAM) : Handled Win32Window :=
  if message = WM_DESTROY then
    let self1 : Win32Window := { self with window_handle_ := 0 }
    let closed := vOnClosed self1
    { self := closed.self, userdata := ud, result := 0,
      events := Event.HandleCleared :: closed.events }
  else
    { self := self, userdata := ud, result := env.DefWindowProc window message wparam lparam,
      events := [Event.DefWindowProc window message wparam lparam] }

/-! Class `FlutterWindow` (flutter_window.cpp). -/

/-- The object `flutter_controller_` points to: a `FlutterViewController` with the view size
it was constructed with.  `id` is the identity of the object: the number of controllers this
host had constructed before it. -/
structure FlutterViewController where
  id : Nat
  width : Int
  height : Int
  deriving DecidableEq, Repr

/-- The object `method_channel_` points to: a `MethodChannel` with its name, the controller
whose engine supplied the messenger, and whether `SetMethodCallHandler` installed the
handler. -/
structure MethodChannel where
  name : String
  messenger_of : Nat
  handler_set : Bool
  deriving DecidableEq, Repr

/-- Data members of class `FlutterWindow`, on top of the base part: `project_`,
`flutter_controller_`, `method_channel_` (a `unique_ptr` is `none` when empty).
`controllers_made` counts the controllers constructed so far and supplies object identities;
it is not a member of the class. -/
structure FlutterWindow extends Win32Window where
  project_ : String
  flutter_controller_ : Option FlutterViewController := none
  method_channel_ : Option MethodChannel := none
  controllers_made : Nat := 0
  deriving DecidableEq, Repr

/-- Constructor `FlutterWindow::FlutterWindow(project)`. -/
def FlutterWindow.new (project : String) : FlutterWindow :=
  { window_handle_ := 0, project_ := project, flutter_controller_ := none,
    method_channel_ := none, controllers_made := 0 }

/-- Events of destroying what a `unique_ptr<FlutterViewController>` holds (`reset()` or
assignment of a new pointer): nothing when it is empty. -/
def releaseController (p : Option FlutterViewController) : List Event :=
  match p with
  | some c => [Event.ControllerReleased c.id]
  | none => []

/-- Events of destroying what a `unique_ptr<MethodChannel>` holds: nothing when it is
empty. -/
def releaseChannel (p : Option MethodChannel) : List Event :=
  match p with
  | some ch => [Event.ChannelReleased ch.name]
  | none => []

/-- Payload values of the channel codec, as far as needed. -/
inductive EncodableValue where
  | null
  | int (v : Int)
  | string (v : String)
  deriving DecidableEq, Repr

/-- A call arriving on the command channel. -/
structure MethodCall where
  method_name : String
  arguments : EncodableValue
  deriving DecidableEq, Repr

/-- What the handler reports through `result`: `Success()` carries no payload. -/
inductive MethodResult where
  | Success (payload : Option EncodableValue)
  | Error (code : String) (text : String)
  | NotImplemented
  deriving DecidableEq, Repr

/-- The lambda passed to `SetMethodCallHandler` in `FlutterWindow::MessageHandler`.  Its
capture list is empty. -/
def MethodCallHandler (call : MethodCall) : MethodResult × List Event :=
  if call.method_name = "windows_start_protection" then
    (MethodResult.Success none,
      [Event.OutputDebugString "Windows protection ON (stub)\n",
       Event.Cout "Windows protection ON (stub)"])
  else if call.method_name = "windows_stop_protection" then
    (MethodResult.Success none,
      [Event.OutputDebugString "Windows protection OFF (stub)\n",
       Event.Cout "Windows protection OFF (stub)"])
  else
    (MethodResult.NotImplemented, [])

/-- Delivery of a call on the command channel of a host: when the channel exists with its
handler installed, the handler runs.  The handler captures nothing, so the host object is
passed through untouched; without a channel there is no handler and no result. -/
def FlutterWindow.OnMethodCall (self : FlutterWindow) (call : MethodCall) :
    FlutterWindow × Option MethodResult × List Event :=
  match self.method_channel_ with
  | some ch =>
    if ch.handler_set then
      (self, some (MethodCallHandler call).1, (MethodCallHandler call).2)
    else (self, none, [])
  | none => (self, none, [])

/-- Function `FlutterWindow::OnClosed`, whose body is `Win32Window::Destroy();`: it acts on
the base part of the object only. -/
def FlutterWindow.OnClosed (base : Win32Window) : Done Win32Window :=
  let destroyed := Win32Window.Destroy base
  { self := destroyed.self, events := Event.OnClosed :: destroyed.events }

/-- Function `FlutterWindow::MessageHandler`. -/
def FlutterWindow.MessageHandler (env : Env) (self : FlutterWindow) (ud : UserData)
    (window : HWND) (message : UINT) (wparam : WPARAM) (lparam : LPARAM) :
    Handled FlutterWindow :=
  if message = WM_NCCREATE then
    { self := self, userdata := ud, result := env.DefWindowProc window message wparam lparam,
      events := [Event.DefWindowProc window message wparam lparam] }
  else if message = WM_CREATE then
    let controller : FlutterViewController :=
      { id := self.controllers_made, width := 1024, height := 640 }
    let channel : MethodChannel :=
      { name := "digital_defender/protection", messenger_of := controller.id,
        handler_set := true }
    { self := { self with flutter_controller_ := some controller,
                          method_channel_ := some channel,
                          controllers_made := self.controllers_made + 1 },
      userdata := SetWindowLongPtr ud window (LONG_PTR.controller controller.id),
      result := 0,
      events :=
        [Event.ControllerCreated controller.id controller.width controller.height]
        ++ releaseController self.flutter_controller_
        ++ [Event.RegisterPlugins controller.id,
            Event.ChannelCreated channel.name controller.id]
        ++ releaseChannel self.method_channel_
        ++ [Event.SetMethodCallHandler channel.name,
            Event.SetWindowLongPtr window (LONG_PTR.controller controller.id)] }
  else
    let self1 : FlutterWindow :=
      if message = WM_DESTROY then
        { self with flutter_controller_ := none, method_channel_ := none }
      else self
    let released : List Event :=
      if message = WM_DESTROY then
        releaseController self.flutter_controller_ ++ releaseChannel self.method_channel_
      else []
    match self1.flutter_controller_ with
    | some controller =>
      { self := self1, userdata := ud,
        result := env.HandleTopLevelWindowProc controller.id window message wparam lparam,
        events := released ++
          [Event.HandleTopLevelWindowProc controller.id window message wparam lparam] }
    | none =>
      let base :=
        Win32Window.MessageHandler env FlutterWindow.OnClosed self1.toWin32Window ud window
          message wparam lparam
      { self := { self1 with toWin32Window := base.self }, userdata := base.userdata,
        result := base.result, events := released ++ base.events }

/-! Virtual dispatch and the window procedure. -/

/-- An object of dynamic class `Win32Window` (the base shell) or `FlutterWindow` (the
embedding host). -/
inductive Instance where
  | shell (w : Win32Window)
  | host (f : FlutterWindow)
  deriving DecidableEq, Repr

/-- The member `window_handle_` of an instance. -/
def Instance.window_handle_ : Instance → HWND
  | Instance.shell w => w.window_handle_
  | Instance.host f => f.window_handle_

/-- The virtual call `that->MessageHandler(window, message, wparam, lparam)`. -/
def Instance.MessageHandler (env : Env) (inst : Instance) (ud : UserData) (window : HWND)
    (message : UINT) (wparam : WPARAM) (lparam : LPARAM) : Handled Instance :=
  match inst with
  | Instance.shell w =>
    let h := Win32Window.MessageHandler env Win32Window.OnClosed w ud window message wparam
      lparam
    { self := Instance.shell h.self, userdata := h.userdata, result := h.result,
      events := h.events }
  | Instance.host f =>
    let h := FlutterWindow.MessageHandler env f ud window message wparam lparam
    { self := Instance.host h.self, userdata := h.userdata, result := h.result,
      events := h.events }

/-- Function `Win32Window::WndProc` for the window owned by `owner`, the object whose address
is `LONG_PTR.shell`.  When the slot holds the address of an object that is not a
`Win32Window`, the call `that->MessageHandler(...)` through the reinterpreted pointer has no
defined behaviour: the outcome is `none`. -/
def WndProc (env : Env) (owner : Instance) (ud : UserData) (window : HWND) (message : UINT)
    (wparam : WPARAM) (lparam : LPARAM) : Option (Handled Instance) :=
  if message = WM_NCCREATE then
    let that := env.lpCreateParams lparam
    some { self := owner, userdata := SetWindowLongPtr ud window that,
           result := env.DefWindowProc window message wparam lparam,
           events := [Event.SetWindowLongPtr window that,
                      Event.DefWindowProc window message wparam lparam] }
  else
    match ud window with
    | LONG_PTR.shell => some (owner.MessageHandler env ud window message wparam lparam)
    | LONG_PTR.controller _ => none
    | LONG_PTR.null =>
      some { self := owner, userdata := ud,
             result := env.DefWindowProc window message wparam lparam,
             events := [Event.DefWindowProc window message wparam lparam] }

/-! Inherited member functions, message sequences, and the process entry point. -/

/-- Member function `CreateAndShow` called on an instance of either class: it is not virtual
and acts on the base part. -/
def Instance.CreateAndShow (env : Env) (inst : Instance) (title : String) (origin : Point)
    (size : Size) (created : HWND) : Instance × Bool × List Event :=
  match inst with
  | Instance.shell w =>
    let r := Win32Window.CreateAndShow env w title origin size created
    (Instance.shell r.1, r.2.1, r.2.2)
  | Instance.host f =>
    let r := Win32Window.CreateAndShow env f.toWin32Window title origin size created
    (Instance.host { f with toWin32Window := r.1 }, r.2.1, r.2.2)

/-- Member function `Destroy` called on an instance of either class: it is not virtual and
acts on the base part. -/
def Instance.Destroy (inst : Instance) : Done Instance :=
  match inst with
  | Instance.shell w =>
    { self := Instance.shell (Win32Window.Destroy w).self,
      events := (Win32Window.Destroy w).events }
  | Instance.host f =>
    { self := Instance.host { f with toWin32Window := (Win32Window.Destroy f.toWin32Window).self },
      events := (Win32Window.Destroy f.toWin32Window).events }

/-- The host handling a sequence of messages in delivery order: the object and the slots
after the last one, and all events emitted. -/
def FlutterWindow.handleAll (env : Env) (self : FlutterWindow) (ud : UserData) :
    List MSG → Handled FlutterWindow
  | [] => { self := self, userdata := ud, result := 0, events := [] }
  | m :: rest =>
    let h := FlutterWindow.MessageHandler env self ud m.hwnd m.message m.wParam m.lParam
    let r := FlutterWindow.handleAll env h.self h.userdata rest
    { self := r.self, userdata := r.userdata, result := r.result,
      events := h.events ++ r.events }

/-- One operation on a window object: a call of `CreateAndShow` (with the handle
`CreateWindow` answers), a call of `Destroy`, or the handling of one message. -/
inductive Op where
  | CreateAndShow (title : String) (origin : Point) (size : Size) (created : HWND)
  | Destroy
  | Message (msg : MSG)
  deriving DecidableEq, Repr

/-- The instance after one operation. -/
def Instance.apply (env : Env) (inst : Instance) (ud : UserData) : Op → Instance × UserData
  | Op.CreateAndShow title origin size created =>
    ((inst.CreateAndShow env title origin size created).1, ud)
  | Op.Destroy => (inst.Destroy.self, ud)
  | Op.Message m =>
    let h := inst.MessageHandler env ud m.hwnd m.message m.wParam m.lParam
    (h.self, h.userdata)

/-- The instance after a sequence of operations. -/
def Instance.applyAll (env : Env) (inst : Instance) (ud : UserData) :
    List Op → Instance × UserData
  | [] => (inst, ud)
  | op :: rest =>
    let r := inst.apply env ud op
    Instance.applyAll env r.1 r.2 rest

/-- The loop `while (GetMessage(&message, nullptr, 0, 0)) { TranslateMessage; DispatchMessage; }`
of `wWinMain`.  The queue lists, for each call of `GetMessage`, the value it returns and the
message it retrieves; `GetMessage` returns `0` exactly for the quit message.  The loop ends at
the first `0`; when the queue holds none the loop never ends and the outcome is `none`. -/
def messageLoop : List (Int × MSG) → Option (List Event)
  | [] => none
  | (ret, msg) :: rest =>
    if ret ≠ 0 then
      match messageLoop rest with
      | some evs =>
        some (Event.GetMessage :: Event.TranslateMessage msg :: Event.DispatchMessage msg :: evs)
      | none => none
    else some [Event.GetMessage]

/-- The process entry point `wWinMain` (main.cpp): the exit code and the events, or `none`
when the message loop never ends.  `created` is what `CreateWindow` answers inside
`CreateAndShow`; `queue` is what the calls of `GetMessage` answer. -/
def wWinMain (env : Env) (show_command : Int) (created : HWND) (queue : List (Int × MSG)) :
    Option (Int × List Event) :=
  let window := FlutterWindow.new "data"
  let origin : Point := { x := 10, y := 10 }
  let size : Size := { width := 1280, height := 720 }
  let shown :=
    Win32Window.CreateAndShow env window.toWin32Window "Digital Defender" origin size created
  if shown.2.1 = false then
    some (EXIT_FAILURE, shown.2.2)
  else
    match messageLoop queue with
    | some evs =>
      some (0, shown.2.2 ++
        [Event.ShowWindow shown.1.GetHandle show_command,
         Event.UpdateWindow shown.1.GetHandle] ++ evs)
    | none => none

/-- First occurrence of `a` comes before the first occurrence of `b`, and `b` occurs. -/
def precedes (a b : Event) (l : List Event) : Prop :=
  l.indexOf a < l.indexOf b ∧ l.indexOf b < l.length

instance (a b : Event) (l : List Event) : Decidable (precedes a b l) := by
  unfold precedes; infer_instance

/-- A sample environment: `DefWindowProc` answers `0`, every engine answers `1`,
`AdjustWindowRect` leaves the frame as it is, and the creation parameter is the owning
shell. -/
def sampleEnv : Env :=
  { DefWindowProc := fun _ _ _ _ => 0,
    HandleTopLevelWindowProc := fun _ _ _ _ _ => 1,
    AdjustWindowRect := fun r => r,
    lpCreateParams := fun _ => LONG_PTR.shell }

/-- A sample host after creation: handle `7`, controller `0` and its channel live. -/
def sampleHost : FlutterWindow :=
  { window_handle_ := 7, project_ := "data",
    flutter_controller_ := some { id := 0, width := 1024, height := 640 },
    method_channel_ :=
      some { name := "digital_defender/protection", messenger_of := 0, handler_set := true },
    controllers_made := 1 }

/-- Slots of a world in which no window has user data yet. -/
def noUserData : UserData := fun _ => LONG_PTR.null

/-- Whether an operation is a call of `CreateAndShow`. -/
def Op.isCreateAndShow : Op → Bool
  | Op.CreateAndShow _ _ _ _ => true
  | _ => false

/-- The exit code carried by the quit message that ends the message loop, in the words of
the specification: the `wParam` of the first message for which `GetMessage` returns `0`. -/
def quitMessageExitCode : List (Int × MSG) → Option Int
  | [] => none
  | (ret, msg) :: rest => if ret ≠ 0 then quitMessageExitCode rest else some (msg.wParam : Int)

/-- The window procedure handling a sequence of messages of its window in delivery order;
`none` once a message meets a slot through which the call has no defined behaviour. -/
def WndProc.deliverAll (env : Env) (owner : Instance) (ud : UserData) :
    List MSG → Option (Handled Instance)
  | [] => some { self := owner, userdata := ud, result := 0, events := [] }
  | m :: rest =>
    match WndProc env owner ud m.hwnd m.message m.wParam m.lParam with
    | some h =>
      match WndProc.deliverAll env h.self h.userdata rest with
      | some r =>
        some { self := r.self, userdata := r.userdata, result := r.result,
               events := h.events ++ r.events }
      | none => none
    | none => none

/-- Identities are well formed: a live controller was constructed earlier, so its identity
is below the count of controllers constructed so far. -/
def FlutterWindow.wf (s : FlutterWindow) : Prop :=
  ∀ c : FlutterViewController, s.flutter_controller_ = some c → c.id < s.controllers_made

/-! Properties. -/

/-- C1: the command handler installed by the embedding host reports success without payload
exactly for the names `windows_start_protection` and `windows_stop_protection` and reports
not-implemented for every other name (the empty name, a name in another case, a name with
something before or after); the result and the events depend on the name alone; after the
creation message the host delivers calls to this handler; delivering a call leaves the host
object (handle, engine, channel) as it was. -/
theorem C1_command_dispatch (call : MethodCall) :
    (MethodCallHandler call).1 =
      (if call.method_name = "windows_start_protection" ∨
          call.method_name = "windows_stop_protection"
       then MethodResult.Success none else MethodResult.NotImplemented) ∧
    (∀ args : EncodableValue,
      MethodCallHandler { method_name := call.method_name, arguments := args } =
        MethodCallHandler call) ∧
    (∀ host : FlutterWindow, (host.OnMethodCall call).1 = host) ∧
    (∀ (env : Env) (host : FlutterWindow) (ud : UserData) (window : HWND) (wparam : WPARAM)
        (lparam : LPARAM),
      ((FlutterWindow.MessageHandler env host ud window WM_CREATE wparam lparam).self.OnMethodCall
        call).2.1 = some (MethodCallHandler call).1) ∧
    (MethodCallHandler { method_name := "", arguments := EncodableValue.null }).1 =
      MethodResult.NotImplemented ∧
    (MethodCallHandler
      { method_name := "Windows_Start_Protection", arguments := EncodableValue.null }).1 =
      MethodResult.NotImplemented ∧
    (MethodCallHandler
      { method_name := "windows_start_protection2", arguments := EncodableValue.null }).1 =
      MethodResult.NotImplemented ∧
    (MethodCallHandler
      { method_name := "xwindows_stop_protection", arguments := EncodableValue.null }).1 =
      MethodResult.NotImplemented := by
  refine ⟨?_, ?_, ?_, ?_, ?_, ?_, ?_, ?_⟩
  · unfold MethodCallHandler
    by_cases h1 : call.method_name = "windows_start_protection"
    · simp [h1]
    · by_cases h2 : call.method_name = "windows_stop_protection"
      · simp [h1, h2]
      · simp [h1, h2]
  · intro args
    simp [MethodCallHandler]
  · intro host
    unfold FlutterWindow.OnMethodCall
    split
    · split <;> rfl
    · rfl
  · intro env host ud window wparam lparam
    simp [FlutterWindow.MessageHandler, FlutterWindow.OnMethodCall, WM_CREATE, WM_NCCREATE]
  · decide
  · decide
  · decide
  · decide

/-- C2: `Destroy` is idempotent on the shell state.  For every shell state, a second
`Destroy` leaves the state of the first, the handle is null after each call, and the second
call requests no OS destruction; on a shell whose handle is null (also a freshly constructed
one) `Destroy` changes nothing and requests no OS destruction, while on a shell holding a
handle it requests destruction of that handle once. -/
theorem C2_destroy_idempotent (s : Win32Window) :
    s.Destroy.self.Destroy.self = s.Destroy.self ∧
    s.Destroy.self.window_handle_ = 0 ∧
    s.Destroy.self.Destroy.self.window_handle_ = 0 ∧
    s.Destroy.self.Destroy.events = [] ∧
    (Win32Window.Destroy { window_handle_ := 0 }).self = { window_handle_ := 0 } ∧
    (Win32Window.Destroy { window_handle_ := 0 }).events = [] ∧
    Win32Window.new.Destroy.self = Win32Window.new ∧
    Win32Window.new.Destroy.events = [] ∧
    s.Destroy.events =
      (if s.window_handle_ = 0 then [] else [Event.DestroyWindow s.window_handle_]) ∧
    (Instance.shell s).Destroy.self.Destroy.self = (Instance.shell s).Destroy.self ∧
    (∀ f : FlutterWindow,
      (Instance.host f).Destroy.self.Destroy.self = (Instance.host f).Destroy.self ∧
      (Instance.host f).Destroy.self.window_handle_ = 0 ∧
      (Instance.host f).Destroy.self.Destroy.events = []) := by
  have key : ∀ w : Win32Window, w.Destroy.self.window_handle_ = 0 := by
    intro w
    unfold Win32Window.Destroy
    by_cases h : w.window_handle_ = 0 <;> simp [h]
  have nul : ∀ w : Win32Window, w.window_handle_ = 0 →
      w.Destroy.self = w ∧ w.Destroy.events = [] := by
    intro w h
    unfold Win32Window.Destroy
    simp [h]
  refine ⟨(nul _ (key s)).1, key s, key _, (nul _ (key s)).2, ?_, ?_, ?_, ?_, ?_, ?_, ?_⟩
  · exact (nul _ rfl).1
  · exact (nul _ rfl).2
  · exact (nul _ rfl).1
  · exact (nul _ rfl).2
  · unfold Win32Window.Destroy
    by_cases h : s.window_handle_ = 0 <;> simp [h]
  · simp only [Instance.Destroy]
    rw [(nul _ (key s)).1]
  · intro f
    simp only [Instance.Destroy, Instance.window_handle_]
    refine ⟨?_, key _, (nul _ (key _)).2⟩
    rw [(nul _ (key f.toWin32Window)).1]

/-- C3: one destroy message handled by the message handler of any instance, base shell or
embedding host, with or without a live engine, whatever handle it holds (so in particular
for every created window): afterwards the stored handle is null, the close-notification hook
`OnClosed` was entered exactly once, and no OS destruction was requested, so the call of
`Destroy` inside the host's hook found the handle already null. -/
theorem C3_destroy_message_closes_once (env : Env) (inst : Instance) (ud : UserData)
    (window : HWND) (wparam : WPARAM) (lparam : LPARAM) :
    (inst.MessageHandler env ud window WM_DESTROY wparam lparam).self.window_handle_ = 0 ∧
    (inst.MessageHandler env ud window WM_DESTROY wparam lparam).events.count Event.OnClosed
      = 1 ∧
    (inst.MessageHandler env ud window WM_DESTROY wparam lparam).events.count
      Event.HandleCleared = 1 ∧
    (∀ h : HWND, Event.DestroyWindow h ∉
      (inst.MessageHandler env ud window WM_DESTROY wparam lparam).events) ∧
    (FlutterWindow.OnClosed { window_handle_ := 0 }).events = [Event.OnClosed] := by
  have hd : WM_DESTROY ≠ WM_NCCREATE := by decide
  have hc : WM_DESTROY ≠ WM_CREATE := by decide
  cases inst with
  | shell w =>
    simp [Instance.MessageHandler, Win32Window.MessageHandler, Win32Window.OnClosed,
      Instance.window_handle_, FlutterWindow.OnClosed, Win32Window.Destroy]
  | host f =>
    cases hcf : f.flutter_controller_ <;> cases hch : f.method_channel_ <;>
      simp [Instance.MessageHandler, FlutterWindow.MessageHandler, Win32Window.MessageHandler,
        FlutterWindow.OnClosed, Win32Window.Destroy, Instance.window_handle_, hd, hc, hcf, hch,
        releaseController, releaseChannel]

/-- C4, counterexample: on the sample host with a live engine and channel the destroy
message releases the engine first and the channel second, so the channel release does not
precede the engine release. -/
theorem C4_counterexample :
    (FlutterWindow.MessageHandler sampleEnv sampleHost noUserData 7 WM_DESTROY 0 0).events =
      [Event.ControllerReleased 0, Event.ChannelReleased "digital_defender/protection",
       Event.HandleCleared, Event.OnClosed] ∧
    ¬ precedes (Event.ChannelReleased "digital_defender/protection")
        (Event.ControllerReleased 0)
        (FlutterWindow.MessageHandler sampleEnv sampleHost noUserData 7 WM_DESTROY 0 0).events := by
  decide

/-- C4, amended: when the host's message handler processes the destroy message with a live
engine and channel, the teardown order is: engine released first, then the command channel
released, then (in the base handler) the window handle cleared, then the close hook. -/
theorem C4_teardown_order (env : Env) (s : FlutterWindow) (ud : UserData) (window : HWND)
    (wparam : WPARAM) (lparam : LPARAM) (c : FlutterViewController) (ch : MethodChannel)
    (hc : s.flutter_controller_ = some c) (hch : s.method_channel_ = some ch) :
    (FlutterWindow.MessageHandler env s ud window WM_DESTROY wparam lparam).events =
      [Event.ControllerReleased c.id, Event.ChannelReleased ch.name, Event.HandleCleared,
       Event.OnClosed] ∧
    precedes (Event.ControllerReleased c.id) (Event.ChannelReleased ch.name)
      (FlutterWindow.MessageHandler env s ud window WM_DESTROY wparam lparam).events ∧
    precedes (Event.ChannelReleased ch.name) Event.HandleCleared
      (FlutterWindow.MessageHandler env s ud window WM_DESTROY wparam lparam).events := by
  have hd : WM_DESTROY ≠ WM_NCCREATE := by decide
  have hcr : WM_DESTROY ≠ WM_CREATE := by decide
  have hev : (FlutterWindow.MessageHandler env s ud window WM_DESTROY wparam lparam).events =
      [Event.ControllerReleased c.id, Event.ChannelReleased ch.name, Event.HandleCleared,
       Event.OnClosed] := by
    simp [FlutterWindow.MessageHandler, Win32Window.MessageHandler, FlutterWindow.OnClosed,
      Win32Window.Destroy, hd, hcr, hc, hch, releaseController, releaseChannel]
  rw [hev]
  refine ⟨rfl, ?_, ?_⟩
  · simp [precedes, List.indexOf_cons]
  · simp [precedes, List.indexOf_cons]

/-- C4, witness: the amended order on the sample host. -/
theorem C4_teardown_order_witness :
    sampleHost.flutter_controller_ = some { id := 0, width := 1024, height := 640 } ∧
    sampleHost.method_channel_ =
      some { name := "digital_defender/protection", messenger_of := 0, handler_set := true } ∧
    precedes (Event.ControllerReleased 0) (Event.ChannelReleased "digital_defender/protection")
      (FlutterWindow.MessageHandler sampleEnv sampleHost noUserData 7 WM_DESTROY 0 0).events :=
  ⟨rfl, rfl, (C4_teardown_order sampleEnv sampleHost noUserData 7 0 0 _ _ rfl rfl).2.1⟩

/-- C5: before the creation message has been processed (engine and channel absent), the
host's message handler, given any message other than the creation message, emits no call of
the engine's window-message processor; for the non-client-creation message it returns the
result of the OS default handler, called directly; for every other message it returns what
the base shell's `MessageHandler` returns, with the same events and the same base state; and
the engine and the channel are still absent afterwards. -/
theorem C5_before_creation_falls_back (env : Env) (s : FlutterWindow) (ud : UserData)
    (window : HWND) (message : UINT) (wparam : WPARAM) (lparam : LPARAM)
    (he : s.flutter_controller_ = none) (hch : s.method_channel_ = none)
    (hm : message ≠ WM_CREATE) :
    (∀ (id : Nat) (w : HWND) (m : UINT) (wp : WPARAM) (lp : LPARAM),
      Event.HandleTopLevelWindowProc id w m wp lp ∉
        (FlutterWindow.MessageHandler env s ud window message wparam lparam).events) ∧
    (message = WM_NCCREATE →
      (FlutterWindow.MessageHandler env s ud window message wparam lparam).result =
        env.DefWindowProc window message wparam lparam ∧
      (FlutterWindow.MessageHandler env s ud window message wparam lparam).events =
        [Event.DefWindowProc window message wparam lparam] ∧
      (FlutterWindow.MessageHandler env s ud window message wparam lparam).self = s) ∧
    (message ≠ WM_NCCREATE →
      (FlutterWindow.MessageHandler env s ud window message wparam lparam).result =
        (Win32Window.MessageHandler env FlutterWindow.OnClosed s.toWin32Window ud window
          message wparam lparam).result ∧
      (FlutterWindow.MessageHandler env s ud window message wparam lparam).events =
        (Win32Window.MessageHandler env FlutterWindow.OnClosed s.toWin32Window ud window
          message wparam lparam).events ∧
      (FlutterWindow.MessageHandler env s ud window message wparam lparam).self.toWin32Window =
        (Win32Window.MessageHandler env FlutterWindow.OnClosed s.toWin32Window ud window
          message wparam lparam).self) ∧
    (FlutterWindow.MessageHandler env s ud window message wparam lparam).self.flutter_controller_
      = none ∧
    (FlutterWindow.MessageHandler env s ud window message wparam lparam).self.method_channel_
      = none := by
  by_cases hn : message = WM_NCCREATE
  · simp [FlutterWindow.MessageHandler, hn, he, hch]
  · by_cases hd : message = WM_DESTROY
    · subst hd
      simp [FlutterWindow.MessageHandler, Win32Window.MessageHandler, FlutterWindow.OnClosed,
        Win32Window.Destroy, hn, hm, he, hch, releaseController, releaseChannel]
    · simp [FlutterWindow.MessageHandler, Win32Window.MessageHandler, hn, hm, hd, he, hch]

/-- C5, witness: a freshly constructed host given the paint message `WM_PAINT` (15). -/
theorem C5_before_creation_falls_back_witness :
    (FlutterWindow.new "data").flutter_controller_ = none ∧
    (FlutterWindow.new "data").method_channel_ = none ∧
    (15 : UINT) ≠ WM_CREATE ∧
    (FlutterWindow.MessageHandler sampleEnv (FlutterWindow.new "data") noUserData 7 15 0
      0).self.flutter_controller_ = none :=
  ⟨rfl, rfl, by decide,
    (C5_before_creation_falls_back sampleEnv (FlutterWindow.new "data") noUserData 7 15 0 0
      rfl rfl (by decide)).2.2.2.1⟩

/-- The host handling the non-client-creation message. -/
theorem FlutterWindow.MessageHandler_nccreate (env : Env) (s : FlutterWindow) (ud : UserData)
    (window : HWND) (wparam : WPARAM) (lparam : LPARAM) :
    FlutterWindow.MessageHandler env s ud window WM_NCCREATE wparam lparam =
      { self := s, userdata := ud,
        result := env.DefWindowProc window WM_NCCREATE wparam lparam,
        events := [Event.DefWindowProc window WM_NCCREATE wparam lparam] } := by
  simp [FlutterWindow.MessageHandler]

/-- The host handling the creation message. -/
theorem FlutterWindow.MessageHandler_create (env : Env) (s : FlutterWindow) (ud : UserData)
    (window : HWND) (wparam : WPARAM) (lparam : LPARAM) :
    FlutterWindow.MessageHandler env s ud window WM_CREATE wparam lparam =
      { self := { s with
          flutter_controller_ := some { id := s.controllers_made, width := 1024, height := 640 },
          method_channel_ := some { name := "digital_defender/protection",
                                    messenger_of := s.controllers_made, handler_set := true },
          controllers_made := s.controllers_made + 1 },
        userdata := SetWindowLongPtr ud window (LONG_PTR.controller s.controllers_made),
        result := 0,
        events :=
          [Event.ControllerCreated s.controllers_made 1024 640]
          ++ releaseController s.flutter_controller_
          ++ [Event.RegisterPlugins s.controllers_made,
              Event.ChannelCreated "digital_defender/protection" s.controllers_made]
          ++ releaseChannel s.method_channel_
          ++ [Event.SetMethodCallHandler "digital_defender/protection",
              Event.SetWindowLongPtr window (LONG_PTR.controller s.controllers_made)] } := by
  have h : WM_CREATE ≠ WM_NCCREATE := by decide
  simp [FlutterWindow.MessageHandler, h]

/-- The host handling the destroy message. -/
theorem FlutterWindow.MessageHandler_destroy (env : Env) (s : FlutterWindow) (ud : UserData)
    (window : HWND) (wparam : WPARAM) (lparam : LPARAM) :
    FlutterWindow.MessageHandler env s ud window WM_DESTROY wparam lparam =
      { self := { s with window_handle_ := 0, flutter_controller_ := none,
                         method_channel_ := none },
        userdata := ud, result := 0,
        events := releaseController s.flutter_controller_ ++ releaseChannel s.method_channel_
          ++ [Event.HandleCleared, Event.OnClosed] } := by
  have h1 : WM_DESTROY ≠ WM_NCCREATE := by decide
  have h2 : WM_DESTROY ≠ WM_CREATE := by decide
  simp [FlutterWindow.MessageHandler, Win32Window.MessageHandler, FlutterWindow.OnClosed,
    Win32Window.Destroy, h1, h2]

/-- The host handling any other message while it holds a controller. -/
theorem FlutterWindow.MessageHandler_forward (env : Env) (s : FlutterWindow) (ud : UserData)
    (window : HWND) (message : UINT) (wparam : WPARAM) (lparam : LPARAM)
    (c : FlutterViewController) (hn : message ≠ WM_NCCREATE) (hcr : message ≠ WM_CREATE)
    (hd : message ≠ WM_DESTROY) (hc : s.flutter_controller_ = some c) :
    FlutterWindow.MessageHandler env s ud window message wparam lparam =
      { self := s, userdata := ud,
        result := env.HandleTopLevelWindowProc c.id window message wparam lparam,
        events := [Event.HandleTopLevelWindowProc c.id window message wparam lparam] } := by
  simp [FlutterWindow.MessageHandler, hn, hcr, hd, hc]

/-- The host handling any other message while it holds no controller. -/
theorem FlutterWindow.MessageHandler_default (env : Env) (s : FlutterWindow) (ud : UserData)
    (window : HWND) (message : UINT) (wparam : WPARAM) (lparam : LPARAM)
    (hn : message ≠ WM_NCCREATE) (hcr : message ≠ WM_CREATE) (hd : message ≠ WM_DESTROY)
    (hc : s.flutter_controller_ = none) :
    FlutterWindow.MessageHandler env s ud window message wparam lparam =
      { self := s, userdata := ud, result := env.DefWindowProc window message wparam lparam,
        events := [Event.DefWindowProc window message wparam lparam] } := by
  simp [FlutterWindow.MessageHandler, Win32Window.MessageHandler, hn, hcr, hd, hc]
  rw [← hc]

/-- Releasing a controller emits no call of a window-message processor. -/
theorem not_forward_mem_releaseController (p : Option FlutterViewController) (id : Nat)
    (w : HWND) (m : UINT) (wp : WPARAM) (lp : LPARAM) :
    Event.HandleTopLevelWindowProc id w m wp lp ∉ releaseController p := by
  cases p <;> simp [releaseController]

/-- Releasing a channel emits no call of a window-message processor. -/
theorem not_forward_mem_releaseChannel (p : Option MethodChannel) (id : Nat)
    (w : HWND) (m : UINT) (wp : WPARAM) (lp : LPARAM) :
    Event.HandleTopLevelWindowProc id w m wp lp ∉ releaseChannel p := by
  cases p <;> simp [releaseChannel]

/-- A message handled by the host forwards only to the controller the host holds. -/
theorem forwarded_is_held (env : Env) (s : FlutterWindow) (ud : UserData) (window : HWND)
    (message : UINT) (wparam : WPARAM) (lparam : LPARAM) (id : Nat) (w : HWND) (m : UINT)
    (wp : WPARAM) (lp : LPARAM)
    (hin : Event.HandleTopLevelWindowProc id w m wp lp ∈
      (FlutterWindow.MessageHandler env s ud window message wparam lparam).events) :
    ∃ c : FlutterViewController, s.flutter_controller_ = some c ∧ c.id = id := by
  have r1 := not_forward_mem_releaseController s.flutter_controller_ id w m wp lp
  have r2 := not_forward_mem_releaseChannel s.method_channel_ id w m wp lp
  by_cases hn : message = WM_NCCREATE
  · subst hn
    rw [FlutterWindow.MessageHandler_nccreate] at hin
    simp at hin
  · by_cases hcr : message = WM_CREATE
    · subst hcr
      rw [FlutterWindow.MessageHandler_create] at hin
      simp [r1, r2] at hin
    · by_cases hd : message = WM_DESTROY
      · subst hd
        rw [FlutterWindow.MessageHandler_destroy] at hin
        simp [r1, r2] at hin
      · cases hcf : s.flutter_controller_ with
        | none =>
          rw [FlutterWindow.MessageHandler_default env s ud window message wparam lparam
            hn hcr hd hcf] at hin
          simp at hin
        | some c =>
          rw [FlutterWindow.MessageHandler_forward env s ud window message wparam lparam c
            hn hcr hd hcf] at hin
          simp at hin
          exact ⟨c, rfl, hin.1.symm⟩

/-- Handling a message never lowers the count of controllers constructed, and the controller
held afterwards is the one held before or one whose identity is the earlier count. -/
theorem held_after_step (env : Env) (s : FlutterWindow) (ud : UserData) (window : HWND)
    (message : UINT) (wparam : WPARAM) (lparam : LPARAM) :
    s.controllers_made ≤
      (FlutterWindow.MessageHandler env s ud window message wparam lparam).self.controllers_made ∧
    ∀ c : FlutterViewController,
      (FlutterWindow.MessageHandler env s ud window message wparam lparam).self.flutter_controller_
        = some c →
      s.flutter_controller_ = some c ∨
        (c.id = s.controllers_made ∧
          (FlutterWindow.MessageHandler env s ud window message wparam lparam).self.controllers_made
            = s.controllers_made + 1) := by
  by_cases hn : message = WM_NCCREATE
  · subst hn
    rw [FlutterWindow.MessageHandler_nccreate]
    simp
  · by_cases hcr : message = WM_CREATE
    · subst hcr
      rw [FlutterWindow.MessageHandler_create]
      refine ⟨Nat.le_succ _, ?_⟩
      intro c hc
      right
      simp at hc
      subst hc
      exact ⟨rfl, rfl⟩
    · by_cases hd : message = WM_DESTROY
      · subst hd
        rw [FlutterWindow.MessageHandler_destroy]
        simp
      · cases hcf : s.flutter_controller_ with
        | none =>
          rw [FlutterWindow.MessageHandler_default env s ud window message wparam lparam
            hn hcr hd hcf]
          simp [hcf]
        | some c0 =>
          rw [FlutterWindow.MessageHandler_forward env s ud window message wparam lparam c0
            hn hcr hd hcf]
          simp [hcf]

/-- Well-formedness of identities is kept by every message. -/
theorem wf_MessageHandler (env : Env) (s : FlutterWindow) (ud : UserData) (window : HWND)
    (message : UINT) (wparam : WPARAM) (lparam : LPARAM) (hwf : s.wf) :
    (FlutterWindow.MessageHandler env s ud window message wparam lparam).self.wf := by
  intro c hc
  have hs := held_after_step env s ud window message wparam lparam
  rcases hs.2 c hc with h | ⟨h1, h2⟩
  · exact Nat.lt_of_lt_of_le (hwf c h) hs.1
  · omega

/-- A freshly constructed host has well-formed identities. -/
theorem wf_new (project : String) : (FlutterWindow.new project).wf := by
  intro c hc
  simp [FlutterWindow.new] at hc

/-- Every controller a message sequence forwards to is the controller held at the start or
one constructed during the sequence. -/
theorem forwarded_in_sequence (env : Env) (ms : List MSG) :
    ∀ (s : FlutterWindow) (ud : UserData) (id : Nat) (w : HWND) (m : UINT) (wp : WPARAM)
      (lp : LPARAM),
      Event.HandleTopLevelWindowProc id w m wp lp ∈ (FlutterWindow.handleAll env s ud ms).events →
      (∃ c : FlutterViewController, s.flutter_controller_ = some c ∧ c.id = id) ∨
        s.controllers_made ≤ id := by
  induction ms with
  | nil =>
    intro s ud id w m wp lp hin
    simp [FlutterWindow.handleAll] at hin
  | cons msg rest ih =>
    intro s ud id w m wp lp hin
    simp only [FlutterWindow.handleAll, List.mem_append] at hin
    rcases hin with h | h
    · exact Or.inl (forwarded_is_held env s ud _ _ _ _ id w m wp lp h)
    · have hs := held_after_step env s ud msg.hwnd msg.message msg.wParam msg.lParam
      rcases ih _ _ id w m wp lp h with ⟨c, hc, hid⟩ | hge
      · rcases hs.2 c hc with h1 | ⟨h1, _⟩
        · exact Or.inl ⟨c, h1, hid⟩
        · right; omega
      · right; omega

/-- C6: after the host's message handler has processed the destroy message, the engine
reference and the channel are both absent, and no later message of any message sequence is
forwarded to the engine that was released: the events of handling the later messages contain
no call of the window-message processor of that engine. -/
theorem C6_no_forward_after_destroy (env : Env) (s : FlutterWindow) (ud : UserData)
    (window : HWND) (wparam : WPARAM) (lparam : LPARAM) (c : FlutterViewController)
    (hc : s.flutter_controller_ = some c) (hwf : s.wf) (later : List MSG) :
    (FlutterWindow.MessageHandler env s ud window WM_DESTROY wparam lparam).self.flutter_controller_
      = none ∧
    (FlutterWindow.MessageHandler env s ud window WM_DESTROY wparam lparam).self.method_channel_
      = none ∧
    (∀ (w : HWND) (m : UINT) (wp : WPARAM) (lp : LPARAM),
      Event.HandleTopLevelWindowProc c.id w m wp lp ∉
        (FlutterWindow.MessageHandler env s ud window WM_DESTROY wparam lparam).events) ∧
    (∀ (w : HWND) (m : UINT) (wp : WPARAM) (lp : LPARAM),
      Event.HandleTopLevelWindowProc c.id w m wp lp ∉
        (FlutterWindow.handleAll env
          (FlutterWindow.MessageHandler env s ud window WM_DESTROY wparam lparam).self
          (FlutterWindow.MessageHandler env s ud window WM_DESTROY wparam lparam).userdata
          later).events) := by
  have r1 : ∀ (w : HWND) (m : UINT) (wp : WPARAM) (lp : LPARAM),
      Event.HandleTopLevelWindowProc c.id w m wp lp ∉ releaseController s.flutter_controller_ :=
    fun w m wp lp => not_forward_mem_releaseController _ _ w m wp lp
  have r2 : ∀ (w : HWND) (m : UINT) (wp : WPARAM) (lp : LPARAM),
      Event.HandleTopLevelWindowProc c.id w m wp lp ∉ releaseChannel s.method_channel_ :=
    fun w m wp lp => not_forward_mem_releaseChannel _ _ w m wp lp
  rw [FlutterWindow.MessageHandler_destroy]
  refine ⟨rfl, rfl, ?_, ?_⟩
  · intro w m wp lp hin
    simp [r1, r2] at hin
  · intro w m wp lp hin
    rcases forwarded_in_sequence env later _ _ c.id w m wp lp hin with ⟨c2, hc2, _⟩ | hge
    · cases hc2
    · have := hwf c hc
      simp only at hge
      omega

/-- C6, witness: on the sample host the destroy message is followed by a second creation
message and a size message (`WM_SIZE`, 5); the size message is forwarded to the new
controller `1`, never to the released controller `0`. -/
theorem C6_no_forward_after_destroy_witness :
    sampleHost.flutter_controller_ = some { id := 0, width := 1024, height := 640 } ∧
    sampleHost.wf ∧
    (∀ (w : HWND) (m : UINT) (wp : WPARAM) (lp : LPARAM),
      Event.HandleTopLevelWindowProc 0 w m wp lp ∉
        (FlutterWindow.handleAll sampleEnv
          (FlutterWindow.MessageHandler sampleEnv sampleHost noUserData 7 WM_DESTROY 0 0).self
          (FlutterWindow.MessageHandler sampleEnv sampleHost noUserData 7 WM_DESTROY 0 0).userdata
          [{ hwnd := 7, message := WM_CREATE, wParam := 0, lParam := 0 },
           { hwnd := 7, message := 5, wParam := 0, lParam := 0 }]).events) ∧
    Event.HandleTopLevelWindowProc 1 7 5 0 0 ∈
      (FlutterWindow.handleAll sampleEnv
        (FlutterWindow.MessageHandler sampleEnv sampleHost noUserData 7 WM_DESTROY 0 0).self
        (FlutterWindow.MessageHandler sampleEnv sampleHost noUserData 7 WM_DESTROY 0 0).userdata
        [{ hwnd := 7, message := WM_CREATE, wParam := 0, lParam := 0 },
         { hwnd := 7, message := 5, wParam := 0, lParam := 0 }]).events :=
  ⟨rfl, by intro c hc; simp [sampleHost] at hc; subst hc; decide,
    (C6_no_forward_after_destroy sampleEnv sampleHost noUserData 7 0 0
      { id := 0, width := 1024, height := 640 } rfl
      (by intro c hc; simp [sampleHost] at hc; subst hc; decide) _).2.2.2,
    by decide⟩

/-- C7, counterexample: the non-client-creation message is neither the creation message nor
the destroy message, the sample host holds an engine, and yet the handler does not forward
the message: it calls the OS default handler and returns its result, which differs from the
result of the engine's processor. -/
theorem C7_counterexample :
    WM_NCCREATE ≠ WM_CREATE ∧ WM_NCCREATE ≠ WM_DESTROY ∧
    sampleHost.flutter_controller_ = some { id := 0, width := 1024, height := 640 } ∧
    (FlutterWindow.MessageHandler sampleEnv sampleHost noUserData 7 WM_NCCREATE 0 0).events =
      [Event.DefWindowProc 7 WM_NCCREATE 0 0] ∧
    (FlutterWindow.MessageHandler sampleEnv sampleHost noUserData 7 WM_NCCREATE 0 0).result ≠
      sampleEnv.HandleTopLevelWindowProc 0 7 WM_NCCREATE 0 0 := by
  decide

/-- C7, amended: in the host's message handler, for every message other than the
non-client-creation message, the creation message and the destroy message: if the engine
exists, the message is forwarded to the engine's window-message processor and that result is
returned verbatim, the only event being that call (the base shell's handler is not invoked)
and the host unchanged; if the engine does not exist, the handler returns what the base
shell's handler returns, which is the result of the OS default handler. -/
theorem C7_forwarding (env : Env) (s : FlutterWindow) (ud : UserData) (window : HWND)
    (message : UINT) (wparam : WPARAM) (lparam : LPARAM) (hn : message ≠ WM_NCCREATE)
    (hcr : message ≠ WM_CREATE) (hd : message ≠ WM_DESTROY) :
    (∀ c : FlutterViewController, s.flutter_controller_ = some c →
      (FlutterWindow.MessageHandler env s ud window message wparam lparam).result =
        env.HandleTopLevelWindowProc c.id window message wparam lparam ∧
      (FlutterWindow.MessageHandler env s ud window message wparam lparam).events =
        [Event.HandleTopLevelWindowProc c.id window message wparam lparam] ∧
      (FlutterWindow.MessageHandler env s ud window message wparam lparam).self = s) ∧
    (s.flutter_controller_ = none →
      (FlutterWindow.MessageHandler env s ud window message wparam lparam).result =
        (Win32Window.MessageHandler env FlutterWindow.OnClosed s.toWin32Window ud window
          message wparam lparam).result ∧
      (FlutterWindow.MessageHandler env s ud window message wparam lparam).events =
        (Win32Window.MessageHandler env FlutterWindow.OnClosed s.toWin32Window ud window
          message wparam lparam).events ∧
      (FlutterWindow.MessageHandler env s ud window message wparam lparam).result =
        env.DefWindowProc window message wparam lparam ∧
      (FlutterWindow.MessageHandler env s ud window message wparam lparam).self = s) := by
  constructor
  · intro c hc
    rw [FlutterWindow.MessageHandler_forward env s ud window message wparam lparam c hn hcr
      hd hc]
    exact ⟨rfl, rfl, rfl⟩
  · intro hc
    rw [FlutterWindow.MessageHandler_default env s ud window message wparam lparam hn hcr hd
      hc]
    simp [Win32Window.MessageHandler, hd]

/-- C7, witness: the sample host forwards the size message `WM_SIZE` (5) to its engine and
returns the engine's answer. -/
theorem C7_forwarding_witness :
    (5 : UINT) ≠ WM_NCCREATE ∧ (5 : UINT) ≠ WM_CREATE ∧ (5 : UINT) ≠ WM_DESTROY ∧
    (FlutterWindow.MessageHandler sampleEnv sampleHost noUserData 7 5 0 0).result =
      sampleEnv.HandleTopLevelWindowProc 0 7 5 0 0 :=
  ⟨by decide, by decide, by decide,
    ((C7_forwarding sampleEnv sampleHost noUserData 7 5 0 0 (by decide) (by decide)
      (by decide)).1 { id := 0, width := 1024, height := 640 } rfl).1⟩

/-- The message loop ends at the first answer `0` of `GetMessage`. -/
theorem messageLoop_ends (pre : List (Int × MSG)) (quit : MSG) (rest : List (Int × MSG))
    (hpre : ∀ m ∈ pre, m.1 ≠ 0) :
    ∃ evs, messageLoop (pre ++ (0, quit) :: rest) = some evs := by
  induction pre with
  | nil => exact ⟨[Event.GetMessage], by simp [messageLoop]⟩
  | cons m pre ih =>
    obtain ⟨evs, he⟩ := ih (fun x hx => hpre x (List.mem_cons_of_mem _ hx))
    have hm : m.1 ≠ 0 := hpre m (List.mem_cons_self _ _)
    obtain ⟨ret, msg⟩ := m
    simp only at hm
    refine ⟨Event.GetMessage :: Event.TranslateMessage msg :: Event.DispatchMessage msg :: evs,
      ?_⟩
    rw [List.cons_append, messageLoop]
    simp [hm, he]

/-- The words of the specification on the same queue: the exit code of the quit message. -/
theorem quitMessageExitCode_ends (pre : List (Int × MSG)) (quit : MSG)
    (rest : List (Int × MSG)) (hpre : ∀ m ∈ pre, m.1 ≠ 0) :
    quitMessageExitCode (pre ++ (0, quit) :: rest) = some (quit.wParam : Int) := by
  induction pre with
  | nil => simp [quitMessageExitCode]
  | cons m pre ih =>
    have hm : m.1 ≠ 0 := hpre m (List.mem_cons_self _ _)
    obtain ⟨ret, msg⟩ := m
    simp only at hm
    rw [List.cons_append, quitMessageExitCode]
    simp only [hm, ne_eq, not_false_eq_true, if_true]
    exact ih (fun x hx => hpre x (List.mem_cons_of_mem _ hx))

/-- C8, counterexample: window creation succeeds (handle `7`), one message is dispatched,
then the quit message carrying exit code `3` ends the loop; the entry point returns `0`, not
the exit code `3` of the quit message. -/
theorem C8_counterexample :
    (wWinMain sampleEnv 1 7
      [(1, { hwnd := 7, message := 15, wParam := 0, lParam := 0 }),
       (0, { hwnd := 0, message := 18, wParam := 3, lParam := 0 })]).map Prod.fst = some 0 ∧
    quitMessageExitCode
      [(1, { hwnd := 7, message := 15, wParam := 0, lParam := 0 }),
       (0, { hwnd := 0, message := 18, wParam := 3, lParam := 0 })] = some 3 ∧
    (wWinMain sampleEnv 1 7
      [(1, { hwnd := 7, message := 15, wParam := 0, lParam := 0 }),
       (0, { hwnd := 0, message := 18, wParam := 3, lParam := 0 })]).map Prod.fst ≠
    quitMessageExitCode
      [(1, { hwnd := 7, message := 15, wParam := 0, lParam := 0 }),
       (0, { hwnd := 0, message := 18, wParam := 3, lParam := 0 })] := by
  decide

/-- C8, amended: on a message queue that reaches a quit message, the entry point returns the
failure exit code exactly when `CreateAndShow` reports failure, and otherwise returns `0`,
whatever exit code the quit message carries; when `CreateAndShow` reports failure the entry
point returns the failure exit code on every queue and the message loop is never run (no call
of `GetMessage`, `TranslateMessage` or `DispatchMessage`). -/
theorem C8_exit_code (env : Env) (show_command : Int) (created : HWND)
    (pre : List (Int × MSG)) (quit : MSG) (rest : List (Int × MSG))
    (hpre : ∀ m ∈ pre, m.1 ≠ 0) :
    (wWinMain env show_command created (pre ++ (0, quit) :: rest)).map Prod.fst =
      some (if created = 0 then EXIT_FAILURE else 0) ∧
    ((wWinMain env show_command created (pre ++ (0, quit) :: rest)).map Prod.fst =
      some EXIT_FAILURE ↔
      (Win32Window.CreateAndShow env (FlutterWindow.new "data").toWin32Window
        "Digital Defender" { x := 10, y := 10 } { width := 1280, height := 720 } created).2.1
        = false) ∧
    (created = 0 → ∀ queue : List (Int × MSG), ∃ evs : List Event,
      wWinMain env show_command created queue = some (EXIT_FAILURE, evs) ∧
      Event.GetMessage ∉ evs ∧
      (∀ m : MSG, Event.TranslateMessage m ∉ evs ∧ Event.DispatchMessage m ∉ evs)) := by
  obtain ⟨evs, he⟩ := messageLoop_ends pre quit rest hpre
  by_cases hc : created = 0
  · subst hc
    simp [wWinMain, Win32Window.CreateAndShow, EXIT_FAILURE]
  · simp [wWinMain, Win32Window.CreateAndShow, EXIT_FAILURE, hc, he]

/-- C8, witness: creation succeeded and the quit message carries exit code `3`. -/
theorem C8_exit_code_witness :
    (∀ m ∈ [((1 : Int), ({ hwnd := 7, message := 15, wParam := 0, lParam := 0 } : MSG))],
      m.1 ≠ 0) ∧
    (wWinMain sampleEnv 1 7
      ([(1, { hwnd := 7, message := 15, wParam := 0, lParam := 0 })] ++
        (0, { hwnd := 0, message := 18, wParam := 3, lParam := 0 }) :: [])).map Prod.fst =
      some (if (7 : HWND) = 0 then EXIT_FAILURE else 0) :=
  ⟨by decide,
    (C8_exit_code sampleEnv 1 7 [(1, { hwnd := 7, message := 15, wParam := 0, lParam := 0 })]
      { hwnd := 0, message := 18, wParam := 3, lParam := 0 } [] (by decide)).1⟩

/-- The handle after the host handled a message: null after the destroy message, unchanged
after any other message. -/
theorem host_handle_after_message (env : Env) (s : FlutterWindow) (ud : UserData)
    (window : HWND) (message : UINT) (wparam : WPARAM) (lparam : LPARAM) :
    (FlutterWindow.MessageHandler env s ud window message wparam lparam).self.window_handle_ =
      (if message = WM_DESTROY then 0 else s.window_handle_) := by
  by_cases hd : message = WM_DESTROY
  · subst hd
    rw [FlutterWindow.MessageHandler_destroy]
    simp
  · by_cases hn : message = WM_NCCREATE
    · subst hn
      rw [FlutterWindow.MessageHandler_nccreate]
      simp [hd]
    · by_cases hcr : message = WM_CREATE
      · subst hcr
        rw [FlutterWindow.MessageHandler_create]
        simp [hd]
      · cases hcf : s.flutter_controller_ with
        | none =>
          rw [FlutterWindow.MessageHandler_default env s ud window message wparam lparam
            hn hcr hd hcf]
          simp [hd]
        | some c =>
          rw [FlutterWindow.MessageHandler_forward env s ud window message wparam lparam c
            hn hcr hd hcf]
          simp [hd]

/-- The handle after an instance of either class handled a message. -/
theorem instance_handle_after_message (env : Env) (inst : Instance) (ud : UserData)
    (window : HWND) (message : UINT) (wparam : WPARAM) (lparam : LPARAM) :
    (inst.MessageHandler env ud window message wparam lparam).self.window_handle_ =
      (if message = WM_DESTROY then 0 else inst.window_handle_) := by
  cases inst with
  | shell w =>
    by_cases hd : message = WM_DESTROY <;>
      simp [Instance.MessageHandler, Win32Window.MessageHandler, Win32Window.OnClosed,
        Instance.window_handle_, hd]
  | host f =>
    simp only [Instance.MessageHandler, Instance.window_handle_]
    exact host_handle_after_message env f ud window message wparam lparam

/-- The handle after `Destroy` on an instance of either class is null. -/
theorem Instance.Destroy_handle (inst : Instance) : inst.Destroy.self.window_handle_ = 0 := by
  cases inst with
  | shell w =>
    simp only [Instance.Destroy, Instance.window_handle_, Win32Window.Destroy]
    by_cases h : w.window_handle_ = 0 <;> simp [h]
  | host f =>
    simp only [Instance.Destroy, Instance.window_handle_, Win32Window.Destroy]
    by_cases h : f.window_handle_ = 0 <;> simp [h]

/-- The handle after `CreateAndShow` is what `CreateWindow` answered, and the reported
success flag says whether it is non-null. -/
theorem Instance.CreateAndShow_handle (env : Env) (inst : Instance) (title : String)
    (origin : Point) (size : Size) (created : HWND) :
    (inst.CreateAndShow env title origin size created).1.window_handle_ = created ∧
    ((inst.CreateAndShow env title origin size created).2.1 = true ↔ created ≠ 0) := by
  cases inst <;>
    simp [Instance.CreateAndShow, Win32Window.CreateAndShow, Instance.window_handle_]

/-- An operation other than `CreateAndShow` leaves a null handle null. -/
theorem Instance.apply_keeps_null (env : Env) (inst : Instance) (ud : UserData) (op : Op)
    (h0 : inst.window_handle_ = 0) (hop : op.isCreateAndShow = false) :
    (inst.apply env ud op).1.window_handle_ = 0 := by
  cases op with
  | CreateAndShow title origin size created => simp [Op.isCreateAndShow] at hop
  | Destroy => exact Instance.Destroy_handle inst
  | Message m =>
    simp only [Instance.apply]
    rw [instance_handle_after_message, h0]
    simp

/-- C9, counterexample: a shell is created (handle `5`), destroyed (handle null), and
`CreateAndShow` is called on the same instance again with the OS answering handle `6`: the
handle is non-null again. -/
theorem C9_counterexample :
    (Instance.applyAll sampleEnv (Instance.shell Win32Window.new) noUserData
      [Op.CreateAndShow "w" { x := 10, y := 10 } { width := 1280, height := 720 } 5]
      ).1.window_handle_ = 5 ∧
    (Instance.applyAll sampleEnv (Instance.shell Win32Window.new) noUserData
      [Op.CreateAndShow "w" { x := 10, y := 10 } { width := 1280, height := 720 } 5,
       Op.Destroy]).1.window_handle_ = 0 ∧
    (Instance.applyAll sampleEnv (Instance.shell Win32Window.new) noUserData
      [Op.CreateAndShow "w" { x := 10, y := 10 } { width := 1280, height := 720 } 5,
       Op.Destroy,
       Op.CreateAndShow "w" { x := 10, y := 10 } { width := 1280, height := 720 } 6]
      ).1.window_handle_ = 6 ∧
    (Instance.applyAll sampleEnv (Instance.shell Win32Window.new) noUserData
      [Op.CreateAndShow "w" { x := 10, y := 10 } { width := 1280, height := 720 } 5,
       Op.Destroy,
       Op.CreateAndShow "w" { x := 10, y := 10 } { width := 1280, height := 720 } 6]
      ).1.window_handle_ ≠ 0 := by
  decide

/-- C9, amended: the handle becomes non-null only through a successful `CreateAndShow`.  A
constructed instance has a null handle; an operation after which the handle is non-null
either kept the handle it found or was a `CreateAndShow` that reported success and stored
the handle the OS answered; and once the handle is null (never created, or cleared by
`Destroy` or by the destroy message), no sequence of `Destroy` calls and handled messages on
that instance makes it non-null again.  (A later successful `CreateAndShow` on the same
instance does store a new handle.) -/
theorem C9_lifecycle (env : Env) (inst : Instance) (ud : UserData) (ops : List Op)
    (h0 : inst.window_handle_ = 0) (hops : ∀ op ∈ ops, op.isCreateAndShow = false) :
    (Instance.applyAll env inst ud ops).1.window_handle_ = 0 ∧
    (∀ (inst2 : Instance) (ud2 : UserData) (op : Op),
      (inst2.apply env ud2 op).1.window_handle_ ≠ 0 →
      (inst2.apply env ud2 op).1.window_handle_ = inst2.window_handle_ ∨
      ∃ (title : String) (origin : Point) (size : Size) (created : HWND),
        op = Op.CreateAndShow title origin size created ∧ created ≠ 0 ∧
        (inst2.CreateAndShow env title origin size created).2.1 = true ∧
        (inst2.apply env ud2 op).1.window_handle_ = created) ∧
    (Instance.shell Win32Window.new).window_handle_ = 0 ∧
    (∀ project : String, (Instance.host (FlutterWindow.new project)).window_handle_ = 0) ∧
    (∀ inst2 : Instance, inst2.Destroy.self.window_handle_ = 0) ∧
    (∀ (inst2 : Instance) (ud2 : UserData) (window : HWND) (wparam : WPARAM) (lparam : LPARAM),
      (inst2.MessageHandler env ud2 window WM_DESTROY wparam lparam).self.window_handle_ = 0) := by
  refine ⟨?_, ?_, rfl, fun _ => rfl, Instance.Destroy_handle, ?_⟩
  · induction ops generalizing inst ud with
    | nil => simpa [Instance.applyAll] using h0
    | cons op rest ih =>
      simp only [Instance.applyAll]
      apply ih
      · exact Instance.apply_keeps_null env inst ud op h0 (hops op (List.mem_cons_self _ _))
      · exact fun x hx => hops x (List.mem_cons_of_mem _ hx)
  · intro inst2 ud2 op hne
    cases op with
    | CreateAndShow title origin size created =>
      right
      have hc := Instance.CreateAndShow_handle env inst2 title origin size created
      simp only [Instance.apply] at hne ⊢
      rw [hc.1] at hne
      exact ⟨title, origin, size, created, rfl, hne, hc.2.2 hne, hc.1⟩
    | Destroy =>
      exact absurd (Instance.Destroy_handle inst2) hne
    | Message m =>
      left
      simp only [Instance.apply] at hne ⊢
      rw [instance_handle_after_message] at hne ⊢
      by_cases hd : m.message = WM_DESTROY
      · simp [hd] at hne
      · simp [hd]
  · intro inst2 ud2 window wparam lparam
    rw [instance_handle_after_message]
    simp

/-- C9, witness: a host whose window was created and then destroyed by the destroy message
keeps a null handle under a further `Destroy`, a creation message and a destroy message. -/
theorem C9_lifecycle_witness :
    (Instance.host { sampleHost with window_handle_ := 0 }).window_handle_ = 0 ∧
    (∀ op ∈ [Op.Destroy, Op.Message { hwnd := 7, message := WM_CREATE, wParam := 0, lParam := 0 },
        Op.Message { hwnd := 7, message := WM_DESTROY, wParam := 0, lParam := 0 }],
      op.isCreateAndShow = false) ∧
    (Instance.applyAll sampleEnv (Instance.host { sampleHost with window_handle_ := 0 })
      noUserData
      [Op.Destroy, Op.Message { hwnd := 7, message := WM_CREATE, wParam := 0, lParam := 0 },
        Op.Message { hwnd := 7, message := WM_DESTROY, wParam := 0, lParam := 0 }]
      ).1.window_handle_ = 0 :=
  ⟨rfl, by decide,
    (C9_lifecycle sampleEnv (Instance.host { sampleHost with window_handle_ := 0 }) noUserData
      [Op.Destroy, Op.Message { hwnd := 7, message := WM_CREATE, wParam := 0, lParam := 0 },
        Op.Message { hwnd := 7, message := WM_DESTROY, wParam := 0, lParam := 0 }]
      rfl (by decide)).1⟩

/-- C10: the code at the failing message sequence.  A host's window `7` receives the
non-client-creation message (the creation parameter is the owning shell), then the creation
message, then a size message (`WM_SIZE`, 5).  After the first message the user-data slot
holds the back-pointer to the shell; the host's handling of the creation message overwrites
the slot with the address of the view controller, so the slot no longer holds the
back-pointer; the third message finds a pointer that is no `Win32Window` and is not routed
to the instance's `MessageHandler`.  For a base shell the same sequence keeps the
back-pointer and every message is routed; with an empty slot `WndProc` returns the result of
the OS default handler. -/
theorem C10_userdata_slot_overwritten :
    (WndProc.deliverAll sampleEnv (Instance.host (FlutterWindow.new "data")) noUserData
      [{ hwnd := 7, message := WM_NCCREATE, wParam := 0, lParam := 0 }]).map
        (fun h => h.userdata 7) = some LONG_PTR.shell ∧
    (WndProc.deliverAll sampleEnv (Instance.host (FlutterWindow.new "data")) noUserData
      [{ hwnd := 7, message := WM_NCCREATE, wParam := 0, lParam := 0 },
       { hwnd := 7, message := WM_CREATE, wParam := 0, lParam := 0 }]).map
        (fun h => h.userdata 7) = some (LONG_PTR.controller 0) ∧
    LONG_PTR.controller 0 ≠ LONG_PTR.shell ∧
    (WndProc.deliverAll sampleEnv (Instance.host (FlutterWindow.new "data")) noUserData
      [{ hwnd := 7, message := WM_NCCREATE, wParam := 0, lParam := 0 },
       { hwnd := 7, message := WM_CREATE, wParam := 0, lParam := 0 },
       { hwnd := 7, message := 5, wParam := 0, lParam := 0 }]).map
        (fun h => h.events) = none ∧
    (WndProc.deliverAll sampleEnv (Instance.shell Win32Window.new) noUserData
      [{ hwnd := 7, message := WM_NCCREATE, wParam := 0, lParam := 0 },
       { hwnd := 7, message := WM_CREATE, wParam := 0, lParam := 0 },
       { hwnd := 7, message := 5, wParam := 0, lParam := 0 }]).map
        (fun h => h.userdata 7) = some LONG_PTR.shell ∧
    (WndProc sampleEnv (Instance.host (FlutterWindow.new "data")) noUserData 7 5 0 0).map
        (fun h => (h.result, h.events)) =
      some (sampleEnv.DefWindowProc 7 5 0 0, [Event.DefWindowProc 7 5 0 0]) := by
  decide

end Runner
